import Mathlib

/-! Verification of the schema-driven validator (database/schema.py) and the
versioned record store (database/db_manager.py) of the food-consumption CRUD
repository.  The relevant Python functions are shallowly embedded as
executable Lean definitions; machine behaviour that the source relies on
(Python scalar coercions, pandas column coercions, dict aliasing, the DuckDB
SQL dialect) is modelled explicitly where the source exercises it. -/

namespace FSA

deriving instance DecidableEq for Except

/-! Python scalar values, as validate_record receives and produces them. -/

inductive Value where
  | vNone
  | vBool (b : Bool)
  | vInt (n : Int)
  | vFloat (q : Rat)
  | vStr (s : String)
deriving DecidableEq

/-! Association lists model Python dicts (lookup and assignment of the first
matching key; assignment appends when the key is absent, as dicts do). -/

def alookup {α : Type} : List (String × α) → String → Option α
  | [], _ => none
  | kv :: rest, k => if kv.1 = k then some kv.2 else alookup rest k

def aset {α : Type} : List (String × α) → String → α → List (String × α)
  | [], k, v => [(k, v)]
  | kv :: rest, k, v => if kv.1 = k then (k, v) :: rest else kv :: aset rest k v

/-! Decimal rendering of numbers, modelling Python str().  Only the shape
matters for the theorems below (in particular: the rendering of a number is
never the empty string); the digit computation is the usual base-10 one. -/

def digitChar (d : Nat) : Char := Char.ofNat (48 + d)

def natDigitsAux : Nat → Nat → List Char
  | 0, _ => []
  | fuel + 1, n => if n = 0 then [] else natDigitsAux fuel (n / 10) ++ [digitChar (n % 10)]

def natStr (n : Nat) : String :=
  if n = 0 then "0" else String.mk (natDigitsAux (n + 1) n)

def intStr : Int → String
  | .ofNat m => natStr m
  | .negSucc m => "-" ++ natStr (m + 1)

/-- Models Python str() of a float.  Integral values render as "n.0" exactly as
Python does; non-integral values are rendered from the reduced fraction (a
model: the theorems only rely on the rendering being non-empty). -/
def floatStr (q : Rat) : String :=
  if q.den = 1 then intStr q.num ++ ".0" else intStr q.num ++ "." ++ natStr q.den

/-- Rendering of a min/max bound inside an error message (the bounds in the
schemas are integers, which Python renders without a decimal point). -/
def qMsg (q : Rat) : String :=
  if q.den = 1 then intStr q.num else floatStr q

/-! Python float()/int() parsing of strings: surrounding whitespace is
stripped; float accepts an optional sign, an integer part and an optional
fractional part; int accepts an optional sign and digits only. -/

def pyStrip (s : String) : List Char :=
  ((s.data.dropWhile Char.isWhitespace).reverse.dropWhile Char.isWhitespace).reverse

def digitsToNat (cs : List Char) : Nat :=
  cs.foldl (fun a c => a * 10 + (c.toNat - 48)) 0

def parseUnsignedFloat (cs : List Char) : Option Rat :=
  let ip := cs.takeWhile Char.isDigit
  let rest := cs.dropWhile Char.isDigit
  match rest with
  | [] => if ip.isEmpty then none else some ((digitsToNat ip : Rat))
  | '.' :: fp =>
    if fp.all Char.isDigit && !(ip.isEmpty && fp.isEmpty) then
      some ((digitsToNat ip : Rat) + (digitsToNat fp : Rat) / ((10 : Rat) ^ fp.length))
    else none
  | _ => none

def parseFloatChars : List Char → Option Rat
  | '-' :: cs => (parseUnsignedFloat cs).map (fun q => -q)
  | '+' :: cs => parseUnsignedFloat cs
  | cs => parseUnsignedFloat cs

def pyFloatParse (s : String) : Option Rat := parseFloatChars (pyStrip s)

def parseIntChars : List Char → Option Int
  | '-' :: cs => if !cs.isEmpty && cs.all Char.isDigit then some (-(digitsToNat cs : Int)) else none
  | '+' :: cs => if !cs.isEmpty && cs.all Char.isDigit then some ((digitsToNat cs : Int)) else none
  | cs => if !cs.isEmpty && cs.all Char.isDigit then some ((digitsToNat cs : Int)) else none

def pyIntParse (s : String) : Option Int := parseIntChars (pyStrip s)

/-! Python coercions used by validate_record (schema.py lines 114-121). -/

def truncQ (q : Rat) : Int := if q < 0 then q.ceil else q.floor

def pyFloatOf : Value → Option Rat
  | .vFloat q => some q
  | .vInt n => some (n : Rat)
  | .vBool b => some (if b then 1 else 0)
  | .vStr s => pyFloatParse s
  | .vNone => none

def pyIntOf : Value → Option Int
  | .vInt n => some n
  | .vFloat q => some (truncQ q)
  | .vBool b => some (if b then 1 else 0)
  | .vStr s => pyIntParse s
  | .vNone => none

def pyStrOf : Value → String
  | .vStr s => s
  | .vInt n => intStr n
  | .vFloat q => floatStr q
  | .vBool b => if b then "True" else "False"
  | .vNone => "None"

/-- Python's `record[field] == ''`: only equal for the empty string itself
(numbers, booleans and None are never equal to a string). -/
def valEqEmptyStr : Value → Bool
  | .vStr s => s = ""
  | _ => false

/-- The missing-value test of schema.py lines 103 and 108:
`field not in record or record[field] is None or record[field] == ''`. -/
def isMissingOpt : Option Value → Bool
  | none => true
  | some .vNone => true
  | some v => valEqEmptyStr v

/-! The schema rules, the structured view of one processed rule dict
(schema.py keeps the converted host type, or a plain string for
date/datetime/unrecognized type names, under the key `type`). -/

inductive RType where
  | rtStr | rtFloat | rtInt | rtBool
  | rtOther (s : String)
deriving DecidableEq

structure Rule where
  rtype : Option RType
  required : Bool
  min : Option Rat
  max : Option Rat
deriving DecidableEq

def mkRule (t : Option RType) (req : Bool) (mn mx : Option Rat) : Rule := ⟨t, req, mn, mx⟩

abbrev Record := List (String × Value)
abbrev Schema := List (String × Rule)
abbrev Schemas := List (String × Schema)

inductive PyError where
  | valueError | typeError | attributeError
  | catalogError | constraintError | parserError | binderError
deriving DecidableEq

/-! The body of validate_record (schema.py lines 101-131), one schema field at
a time. -/

def isNumericVal : Value → Bool
  | .vInt _ => true
  | .vFloat _ => true
  | .vBool _ => true
  | _ => false

def numAsQ : Value → Rat
  | .vInt n => (n : Rat)
  | .vFloat q => q
  | .vBool b => if b then 1 else 0
  | _ => 0

def isNumRule : Option RType → Bool
  | some .rtInt => true
  | some .rtFloat => true
  | _ => false

/-- Min/max validation (schema.py lines 126-131).  Both bounds write the same
key of the errors dict, so a max message overwrites a min message. -/
def boundsErr (field : String) (rl : Rule) (v : Value) : Option String :=
  if isNumRule rl.rtype && isNumericVal v then
    let minE : Option String :=
      match rl.min with
      | some m => if numAsQ v < m then some (field ++ " must be at least " ++ qMsg m) else none
      | none => none
    let maxE : Option String :=
      match rl.max with
      | some m => if m < numAsQ v then some (field ++ " must be at most " ++ qMsg m) else none
      | none => none
    match maxE with
    | some e => some e
    | none => minE
  else none

/-- The type-coercion block (schema.py lines 112-124): ok (some v) means the
coerced value v was assigned back to the record, ok none means no assignment
happened (no type, bool, or the date/datetime/unrecognized string types),
error carries the type name for the error message. -/
def coerceVal : Option RType → Value → Except String (Option Value)
  | some .rtFloat, v =>
    match pyFloatOf v with
    | some q => .ok (some (.vFloat q))
    | none => .error "float"
  | some .rtInt, v =>
    match pyIntOf v with
    | some n => .ok (some (.vInt n))
    | none => .error "int"
  | some .rtStr, v => .ok (some (.vStr (pyStrOf v)))
  | _, _ => .ok none

/-- One iteration of the field loop of validate_record: given the rule and the
record's current value at the field, returns the value assigned back to the
record (if any) and the error message recorded for the field (if any). -/
def fieldStep (field : String) (rl : Rule) (v? : Option Value) : Option Value × Option String :=
  if rl.required && isMissingOpt v? then
    (none, some (field ++ " is required"))
  else if isMissingOpt v? then
    (none, none)
  else
    match v? with
    | none => (none, none)
    | some v =>
      match coerceVal rl.rtype v with
      | .error tn => (none, some (field ++ " must be a valid " ++ tn))
      | .ok w? =>
        (w?, boundsErr field rl (match w? with | some w => w | none => v))

def validateField (record : Record) (field : String) (rl : Rule) : Record × Option String :=
  match fieldStep field rl (alookup record field) with
  | (some w, e?) => (aset record field w, e?)
  | (none, e?) => (record, e?)

def validateRecordAux : Schema → Record → Record × List (String × String)
  | [], r => (r, [])
  | (f, rl) :: rest, r =>
    ((validateRecordAux rest (validateField r f rl).1).1,
     match (validateField r f rl).2 with
     | some m => (f, m) :: (validateRecordAux rest (validateField r f rl).1).2
     | none => (validateRecordAux rest (validateField r f rl).1).2)

/-- validate_record (schema.py lines 93-133): raises ValueError for an
unknown table, otherwise returns the per-field errors dict together with the
record as mutated in place by the coercions. -/
def validate_record (schemas : Schemas) (table : String) (record : Record) :
    Except PyError (List (String × String) × Record) :=
  match alookup schemas table with
  | none => .error .valueError
  | some schema =>
    .ok ((validateRecordAux schema record).2, (validateRecordAux schema record).1)

/-- The built-in default schema (schema.py lines 79-91), in the structured
rule view used by the validator. -/
def default_food_schema : Schema :=
  [ ("commodity", mkRule (some .rtStr) true none none),
    ("age_group", mkRule (some .rtStr) true none none),
    ("mean_consumption_chronic", mkRule (some .rtFloat) false (some 0) none),
    ("mean_consumption_acute", mkRule (some .rtFloat) false (some 0) none),
    ("percentile_97_chronic", mkRule (some .rtFloat) false (some 0) none),
    ("percentile_97_acute", mkRule (some .rtFloat) false (some 0) none),
    ("notes", mkRule (some .rtStr) false none none) ]

def defaultSchemas : Schemas := [("food_consumption", default_food_schema)]

/-! Pandas dataframes: a mapping from column name to an equal-length list of
cells, plus the row count. -/

inductive Cell where
  | cNum (q : Rat)
  | cNaN
  | cStr (s : String)
  | cNone
  | cBool (b : Bool)
deriving DecidableEq

structure Df where
  cols : List (String × List Cell)
  nrows : Nat
deriving DecidableEq

def Df.getCol (df : Df) (c : String) : Option (List Cell) := alookup df.cols c

def Df.setCol (df : Df) (c : String) (cells : List Cell) : Df :=
  ⟨aset df.cols c cells, df.nrows⟩

def Df.hasCol (df : Df) (c : String) : Bool := (alookup df.cols c).isSome

/-- pandas pd.to_numeric(col, errors='coerce') on one cell: numbers and
booleans become numbers, parseable strings are parsed, everything else
becomes NaN. -/
def toNumericCell : Cell → Cell
  | .cNum q => .cNum q
  | .cBool b => .cNum (if b then 1 else 0)
  | .cStr s =>
    match pyFloatParse s with
    | some q => .cNum q
    | none => .cNaN
  | .cNone => .cNaN
  | .cNaN => .cNaN

/-- pandas .astype(str) on one cell (note: NaN renders as the non-empty
string "nan"). -/
def astypeStrCell : Cell → String
  | .cStr s => s
  | .cNum q => floatStr q
  | .cNaN => "nan"
  | .cNone => "None"
  | .cBool b => if b then "True" else "False"

/-- pandas .fillna('') on one cell: missing values (NaN and None) become the
empty string, everything else is untouched. -/
def fillnaEmpty : Cell → Cell
  | .cNaN => .cStr ""
  | .cNone => .cStr ""
  | c => c

/-- Python str.isspace(): non-empty and all whitespace. -/
def pyIsSpace (s : String) : Bool := !s.isEmpty && s.data.all Char.isWhitespace

/-! validate_dataframe (schema.py lines 135-203).  The loop state carries the
caller's df object (which the source never writes: line 143 makes a copy and
every subsequent write targets validated_df), validated_df itself, the one
shared error dict that every entry of row_errors aliases (line 152 builds
row_errors as a list of n references to a single dict), and has_errors. -/

structure VState where
  caller_df : Df
  vdf : Df
  shared : List (String × String)
  hasErr : Bool
deriving DecidableEq

/-- One schema column of validate_dataframe (source lines 156-201). -/
def vdStep (nrows : Nat) (st : VState) (col : String) (rl : Rule) : VState :=
  if st.vdf.hasCol col = false then
    if rl.required then
      { st with
        shared := if nrows = 0 then st.shared else aset st.shared col (col ++ " is required"),
        hasErr := true }
    else st
  else
    match rl.rtype with
    | some .rtFloat =>
      let cells2 := ((st.vdf.getCol col).getD []).map toNumericCell
      let vdf2 := st.vdf.setCol col cells2
      let nanBad := rl.required && cells2.any (fun c => c == .cNaN)
      let s1 := if nanBad then aset st.shared col (col ++ " must be a valid number") else st.shared
      let h1 := st.hasErr || nanBad
      let p2 : List (String × String) × Bool :=
        match rl.min with
        | some m =>
          if cells2.any (fun c => match c with | .cNum q => q < m | _ => false) then
            (aset s1 col (col ++ " must be at least " ++ qMsg m), true)
          else (s1, h1)
        | none => (s1, h1)
      let p3 : List (String × String) × Bool :=
        match rl.max with
        | some m =>
          if cells2.any (fun c => match c with | .cNum q => m < q | _ => false) then
            (aset p2.1 col (col ++ " must be at most " ++ qMsg m), true)
          else p2
        | none => p2
      ⟨st.caller_df, vdf2, p3.1, p3.2⟩
    | some .rtStr =>
      let cells2 := ((st.vdf.getCol col).getD []).map (fun c => Cell.cStr (astypeStrCell c))
      let vdf2 := st.vdf.setCol col cells2
      let emptyBad := rl.required &&
        cells2.any (fun c => match c with | .cStr s => (s == "") || pyIsSpace s | _ => false)
      let s1 := if emptyBad then aset st.shared col (col ++ " cannot be empty") else st.shared
      ⟨st.caller_df, vdf2, s1, st.hasErr || emptyBad⟩
    | _ => st

structure VOut where
  caller_df : Df
  validated_df : Df
  row_errors : List (List (String × String))
  has_errors : Bool
deriving DecidableEq

/-- validate_dataframe (schema.py lines 135-203): raises ValueError for an
unknown table or a missing required column; otherwise coerces column by
column, recording errors in the shared dict aliased by every row of
row_errors, and returns the coerced copy, row_errors and has_errors. -/
def validate_dataframe (schemas : Schemas) (table : String) (df : Df) :
    Except PyError VOut :=
  match alookup schemas table with
  | none => .error .valueError
  | some schema =>
    if (schema.filter (fun p => p.2.required)).any (fun p => df.hasCol p.1 = false) then
      .error .valueError
    else
      .ok ⟨(schema.foldl (fun st p => vdStep df.nrows st p.1 p.2) ⟨df, df, [], false⟩).caller_df,
           (schema.foldl (fun st p => vdStep df.nrows st p.1 p.2) ⟨df, df, [], false⟩).vdf,
           List.replicate df.nrows
             (schema.foldl (fun st p => vdStep df.nrows st p.1 p.2) ⟨df, df, [], false⟩).shared,
           (schema.foldl (fun st p => vdStep df.nrows st p.1 p.2) ⟨df, df, [], false⟩).hasErr⟩

/-! clean_dataframe_for_import (schema.py lines 205-227). -/

/-- The per-column coercion of clean_dataframe_for_import (source lines
218-225): float columns through to_numeric with coercion, string columns
through fillna('') then astype(str), other types untouched. -/
def cleanColCells (rl : Rule) (cells : List Cell) : List Cell :=
  match rl.rtype with
  | some .rtFloat => cells.map toNumericCell
  | some .rtStr => cells.map (fun c => Cell.cStr (astypeStrCell (fillnaEmpty c)))
  | _ => cells

def cleanStep (d : Df) (col : String) (rl : Rule) : Df :=
  if d.hasCol col then d.setCol col (cleanColCells rl ((d.getCol col).getD [])) else d

/-- The type-coercion loop of clean_dataframe_for_import (source lines
217-225), over the schema fields in order. -/
def cleanFold (schema : Schema) (d : Df) : Df :=
  schema.foldl (fun d p => cleanStep d p.1 p.2) d

structure COut where
  caller_df : Df
  clean_df : Df
deriving DecidableEq

/-- clean_dataframe_for_import (schema.py lines 205-227): raises ValueError
for an unknown table; otherwise drops the columns absent from the schema from
a copy of df and re-applies the type coercions. -/
def clean_dataframe_for_import (schemas : Schemas) (table : String) (df : Df) :
    Except PyError COut :=
  match alookup schemas table with
  | none => .error .valueError
  | some schema =>
    .ok ⟨df,
         cleanFold schema
           ⟨df.cols.filter (fun p => schema.any (fun q => q.1 == p.1)), df.nrows⟩⟩

/-! Schema loading, _load_schema (schema.py lines 23-77).  The parsed
configuration is modelled structurally: scalars for YAML/TOML leaves, and a
possibly-malformed (non-dict) shape at each of the three levels the code
iterates.  Python exceptions raised while processing are modelled as Except
errors, all caught by the surrounding try/except which falls back to the
default schema. -/

inductive RawVal where
  | rvStr (s : String)
  | rvBool (b : Bool)
  | rvNum (q : Rat)
  | rvNull
deriving DecidableEq

inductive RawRules where
  | scalar (v : RawVal)
  | dict (entries : List (String × RawVal))
deriving DecidableEq

inductive RawTable where
  | scalar (v : RawVal)
  | dict (fields : List (String × RawRules))
deriving DecidableEq

inductive RawSchema where
  | scalar (v : RawVal)
  | dict (tables : List (String × RawTable))
deriving DecidableEq

/-- The four host types the loader converts type-name strings to. -/
inductive PType where
  | ptStr | ptFloat | ptInt | ptBool
deriving DecidableEq

/-- A value in a processed rule dict: either a converted host type object or
a configuration value passed through unchanged. -/
inductive PRuleVal where
  | pType (t : PType)
  | pRaw (v : RawVal)
deriving DecidableEq

abbrev ProcRules := List (String × PRuleVal)
abbrev ProcSchema := List (String × List (String × ProcRules))

/-- Python str.lower(), for the ASCII names and extensions the loader
compares. -/
def strLower (s : String) : String := String.mk (s.data.map Char.toLower)

/-- The type-name conversion (schema.py lines 57-70): the nine recognized
names are converted (date and datetime to the special lowercase marker
strings), every other name is left exactly as read. -/
def convertTypeVal (ts : String) : PRuleVal :=
  if strLower ts = "str" ∨ strLower ts = "string" then .pType .ptStr
  else if strLower ts = "float" then .pType .ptFloat
  else if strLower ts = "int" ∨ strLower ts = "integer" then .pType .ptInt
  else if strLower ts = "bool" ∨ strLower ts = "boolean" then .pType .ptBool
  else if strLower ts = "date" then .pRaw (.rvStr "date")
  else if strLower ts = "datetime" then .pRaw (.rvStr "datetime")
  else .pRaw (.rvStr ts)

def supportedTypeName (ts : String) : Bool :=
  strLower ts = "str" || strLower ts = "string" || strLower ts = "float" ||
  strLower ts = "int" || strLower ts = "integer" || strLower ts = "bool" ||
  strLower ts = "boolean" || strLower ts = "date" || strLower ts = "datetime"

/-- One entry of a rule dict: the `type` entry must hold a string (the source
calls .lower() on it, so any other value raises and lands in the fallback),
every other entry is copied unchanged. -/
def processRuleEntry (e : String × RawVal) : Except Unit (String × PRuleVal) :=
  if e.1 = "type" then
    match e.2 with
    | .rvStr s => .ok (e.1, convertTypeVal s)
    | _ => .error ()
  else .ok (e.1, .pRaw e.2)

def processRules : RawRules → Except Unit ProcRules
  | .scalar _ => .error ()
  | .dict entries => entries.mapM processRuleEntry

def processTable : RawTable → Except Unit (List (String × ProcRules))
  | .scalar _ => .error ()
  | .dict fields => fields.mapM (fun p => (processRules p.2).map (fun pr => (p.1, pr)))

def processSchema : RawSchema → Except Unit ProcSchema
  | .scalar _ => .error ()
  | .dict tables => tables.mapM (fun p => (processTable p.2).map (fun pt => (p.1, pt)))

/-- The built-in default schema (schema.py lines 79-91) in processed form. -/
def default_schema : ProcSchema :=
  [ ("food_consumption",
     [ ("commodity", [("type", .pType .ptStr), ("required", .pRaw (.rvBool true))]),
       ("age_group", [("type", .pType .ptStr), ("required", .pRaw (.rvBool true))]),
       ("mean_consumption_chronic",
        [("type", .pType .ptFloat), ("required", .pRaw (.rvBool false)), ("min", .pRaw (.rvNum 0))]),
       ("mean_consumption_acute",
        [("type", .pType .ptFloat), ("required", .pRaw (.rvBool false)), ("min", .pRaw (.rvNum 0))]),
       ("percentile_97_chronic",
        [("type", .pType .ptFloat), ("required", .pRaw (.rvBool false)), ("min", .pRaw (.rvNum 0))]),
       ("percentile_97_acute",
        [("type", .pType .ptFloat), ("required", .pRaw (.rvBool false)), ("min", .pRaw (.rvNum 0))]),
       ("notes", [("type", .pType .ptStr), ("required", .pRaw (.rvBool false))]) ]) ]

/-- A configuration source as _load_schema observes it: the file may be
missing, or it has an extension and a parse outcome (error models an IO or
yaml/toml exception while reading). -/
inductive SchemaSource where
  | missing
  | source (ext : String) (content : Except Unit RawSchema)

/-- _load_schema (schema.py lines 23-77): a missing file, an unsupported
extension, a parse failure or a processing exception all fall back to the
built-in default schema; otherwise the processed schema is returned. -/
def load_schema (src : SchemaSource) : ProcSchema :=
  match src with
  | .missing => default_schema
  | .source ext content =>
    if strLower ext = ".yaml" ∨ strLower ext = ".yml" ∨ strLower ext = ".toml" then
      match content with
      | .error _ => default_schema
      | .ok raw =>
        match processSchema raw with
        | .ok s => s
        | .error _ => default_schema
    else default_schema

/-- The configuration sources for which the code falls back to the default
schema: missing file, unsupported extension, unreadable/unparseable content,
or content whose processing raises. -/
def badSource : SchemaSource → Prop
  | .missing => True
  | .source ext content =>
    (¬ (strLower ext = ".yaml" ∨ strLower ext = ".yml" ∨ strLower ext = ".toml"))
    ∨ content = .error ()
    ∨ (∃ raw, content = .ok raw ∧ processSchema raw = .error ())

/-! The record store, db_manager.py.  The two tables created by
_initialize_db are modelled with DuckDB's semantics for the SQL the source
issues: `id INTEGER PRIMARY KEY` has no default and is not auto-incremented
(DuckDB has no implicit rowid), PRIMARY KEY implies NOT NULL and UNIQUE,
commodity and age_group are NOT NULL, version defaults to 1 and the
timestamps default to the current clock tick. -/

inductive SV where
  | sNull
  | sInt (n : Int)
  | sFloat (q : Rat)
  | sText (s : String)
  | sTime (t : Nat)
deriving DecidableEq

abbrev SRow := List (String × SV)

structure Tombstone where
  original_id : SV
  table_name : String
  record_data : SRow
  deleted_at : Nat
deriving DecidableEq

structure Store where
  food : List SRow
  deleted : List Tombstone
  clock : Nat
deriving DecidableEq

def foodColumns : List String :=
  [ "id", "commodity", "age_group",
    "mean_consumption_chronic", "mean_consumption_acute",
    "percentile_97_chronic", "percentile_97_acute",
    "notes", "version", "created_at", "updated_at" ]

def foodDefault (clock : Nat) (c : String) : SV :=
  if c = "version" then .sInt 1
  else if c = "created_at" then .sTime clock
  else if c = "updated_at" then .sTime clock
  else .sNull

/-- The row an INSERT into food_consumption builds: provided columns keep
their values, the rest take the table defaults. -/
def buildFoodRow (clock : Nat) (data : SRow) : SRow :=
  foodColumns.map (fun c => (c, (alookup data c).getD (foodDefault clock c)))

/-- INSERT INTO food_consumption (cols...) VALUES (...): unknown columns are a
binder error; omitted columns take their defaults (NULL for id, which then
violates the primary-key NOT NULL constraint); the primary key must also be
unique and commodity/age_group are NOT NULL. -/
def insertFood (st : Store) (data : SRow) : Except PyError Store :=
  if data.all (fun kv => foodColumns.contains kv.1) = false then .error .binderError
  else
    if alookup (buildFoodRow st.clock data) "id" = some .sNull then .error .constraintError
    else if st.food.any (fun r => alookup r "id" == alookup (buildFoodRow st.clock data) "id") then
      .error .constraintError
    else if alookup (buildFoodRow st.clock data) "commodity" = some .sNull ∨
        alookup (buildFoodRow st.clock data) "age_group" = some .sNull then
      .error .constraintError
    else .ok { st with food := st.food ++ [buildFoodRow st.clock data], clock := st.clock + 1 }

/-- add_record (db_manager.py lines 66-77).  The INSERT omits the id primary
key, for which DuckDB supplies no value (no default, no rowid), so the insert
hits the NOT NULL primary-key constraint; and even a successful insert would
be followed by SELECT last_insert_rowid(), an SQLite function that does not
exist in DuckDB (catalog error).  For tables other than food_consumption the
function body is skipped and Python returns None. -/
def add_record (st : Store) (table : String) (data : SRow) :
    Store × Except PyError (Option Int) :=
  if table = "food_consumption" then
    match insertFood st data with
    | .error e => (st, .error e)
    | .ok st2 => (st2, .error .catalogError)
  else (st, .ok none)

/-- get_record_by_id (db_manager.py lines 59-64): fetchone() on the point
SELECT, i.e. the first matching row as a plain tuple of values, or None. -/
def get_record_by_id (st : Store) (table : String) (rid : Int) :
    Except PyError (Option (List SV)) :=
  if table = "food_consumption" then
    .ok ((st.food.find? (fun r => alookup r "id" == some (.sInt rid))).map
          (fun r => r.map Prod.snd))
  else .error .catalogError

/-- The first statement of update_record (db_manager.py lines 83-86):
SELECT version FROM food_consumption WHERE id = ?, then fetchone()[0]. -/
def readVersionStep (st : Store) (rid : Int) : Option SV :=
  (st.food.find? (fun r => alookup r "id" == some (.sInt rid))).bind
    (fun r => alookup r "version")

/-- The second statement of update_record (db_manager.py lines 89-98):
UPDATE ... SET fields, version = newVer, updated_at = CURRENT_TIMESTAMP
WHERE id = ?. -/
def writeVersionStep (st : Store) (rid : Int) (data : SRow) (newVer : Int) : Store :=
  { st with
    food := st.food.map (fun r =>
      if alookup r "id" == some (.sInt rid) then
        r.map (fun kv =>
          (kv.1,
           if kv.1 = "version" then SV.sInt newVer
           else if kv.1 = "updated_at" then SV.sTime st.clock
           else (alookup data kv.1).getD kv.2))
      else r),
    clock := st.clock + 1 }

/-- update_record (db_manager.py lines 79-98): reads the current version,
then writes the new field values with version + 1.  When no row has the id,
fetchone() returns None and the source immediately indexes it (line 86), so
the call raises TypeError instead of reporting anything; the same happens if
the stored version is not an integer (None + 1).  For other tables the body
is skipped. -/
def update_record (st : Store) (table : String) (rid : Int) (data : SRow) :
    Store × Except PyError Unit :=
  if table = "food_consumption" then
    match readVersionStep st rid with
    | none => (st, .error .typeError)
    | some (.sInt v) => (writeVersionStep st rid data (v + 1), .ok ())
    | some _ => (st, .error .typeError)
  else (st, .ok ())

/-- delete_record (db_manager.py lines 100-117): when the record exists,
get_record_by_id hands back a plain tuple, and line 106 immediately calls
record.keys() on it — tuples have no keys(), so the call raises
AttributeError before any statement runs; when the record does not exist the
function returns False. -/
def delete_record (st : Store) (table : String) (rid : Int) :
    Store × Except PyError Bool :=
  if table = "food_consumption" then
    match st.food.find? (fun r => alookup r "id" == some (.sInt rid)) with
    | some _ => (st, .error .attributeError)
    | none => (st, .ok false)
  else (st, .error .catalogError)

/-- The tombstone selected by SELECT record_data FROM deleted_records WHERE
original_id = ? AND table_name = ? ORDER BY deleted_at DESC LIMIT 1. -/
def newestTombstone (l : List Tombstone) (oid : Int) (table : String) : Option Tombstone :=
  (l.filter (fun d => d.original_id == .sInt oid && d.table_name == table)).foldl
    (fun acc d =>
      match acc with
      | none => some d
      | some b => if b.deleted_at < d.deleted_at then some d else some b)
    none

/-- undo_delete (db_manager.py lines 119-146): re-inserts the record of the
newest tombstone (each statement autocommits), then issues
DELETE FROM deleted_records ... ORDER BY deleted_at DESC LIMIT 1 — DELETE
supports no ORDER BY/LIMIT in DuckDB, so that statement raises a parser
error and no tombstone is ever removed. -/
def undo_delete (st : Store) (oid : Int) (table : String) :
    Store × Except PyError Bool :=
  match newestTombstone st.deleted oid table with
  | none => (st, .ok false)
  | some d =>
    if table = "food_consumption" then
      match insertFood st d.record_data with
      | .error e => (st, .error e)
      | .ok st2 => (st2, .error .parserError)
    else (st, .error .catalogError)

/-! Concrete fixtures used by the theorems below. -/

def dfC1 : Df :=
  ⟨[ ("commodity", [.cStr "", .cStr "apple", .cStr "pear"]),
     ("age_group", [.cStr "adults", .cStr "adults", .cStr "adults"]),
     ("mean_consumption_chronic", [.cNum 1, .cNum (-5), .cNum 2]) ], 3⟩

def emptyStore : Store := ⟨[], [], 0⟩

def rowOne : SRow :=
  [ ("id", .sInt 1), ("commodity", .sText "apple"), ("age_group", .sText "adults"),
    ("mean_consumption_chronic", .sNull), ("mean_consumption_acute", .sNull),
    ("percentile_97_chronic", .sNull), ("percentile_97_acute", .sNull),
    ("notes", .sNull), ("version", .sInt 1), ("created_at", .sTime 0), ("updated_at", .sTime 0) ]

def storeOne : Store := ⟨[rowOne], [], 1⟩

def rowOneV2 : SRow :=
  [ ("id", .sInt 1), ("commodity", .sText "pear"), ("age_group", .sText "adults"),
    ("mean_consumption_chronic", .sNull), ("mean_consumption_acute", .sNull),
    ("percentile_97_chronic", .sNull), ("percentile_97_acute", .sNull),
    ("notes", .sNull), ("version", .sInt 2), ("created_at", .sTime 0), ("updated_at", .sTime 2) ]

def tombEarly : Tombstone := ⟨.sInt 1, "food_consumption", rowOne, 3⟩

def tombLate : Tombstone := ⟨.sInt 1, "food_consumption", rowOneV2, 5⟩

def storeTwoTombs : Store := ⟨[], [tombEarly, tombLate], 6⟩

def dataB : SRow := [("commodity", .sText "beef")]

def dataC : SRow := [("commodity", .sText "corn")]

def recC6 : Record :=
  [ ("commodity", .vStr "apple"), ("age_group", .vStr "adults"),
    ("mean_consumption_chronic", .vStr "2") ]

def recC6coerced : Record :=
  [ ("commodity", .vStr "apple"), ("age_group", .vStr "adults"),
    ("mean_consumption_chronic", .vFloat 2) ]

def wSchema : Schema :=
  [ ("a", mkRule (some .rtFloat) false (some 0) none),
    ("b", mkRule (some .rtStr) true none none) ]

def wSchemas : Schemas := [("t", wSchema)]

def wDf : Df :=
  ⟨[ ("a", [.cStr "x", .cNum 2]), ("b", [.cNaN, .cStr "hi"]),
     ("zz", [.cNum 9, .cNum 9]) ], 2⟩

def schemasEmptyT : Schemas := [("t0", [])]

def dfSmall : Df := ⟨[("c", [.cNum 1])], 1⟩

def rawUnsupported : RawSchema :=
  .dict [("food_consumption", .dict [("commodity", .dict [("type", .rvStr "decimal")])])]

/-! Association-list (dict) lemmas. -/

theorem alookup_aset_self {α : Type} (l : List (String × α)) (k : String) (v : α) :
    alookup (aset l k v) k = some v := by
  induction l with
  | nil => simp [aset, alookup]
  | cons kv rest ih =>
    by_cases h : kv.1 = k
    · simp [aset, h, alookup]
    · simp [aset, h, alookup, ih]

theorem alookup_aset_ne {α : Type} (l : List (String × α)) (k k2 : String) (v : α)
    (h : k ≠ k2) : alookup (aset l k v) k2 = alookup l k2 := by
  induction l with
  | nil => simp [aset, alookup, h]
  | cons kv rest ih =>
    by_cases hk : kv.1 = k
    · subst hk
      simp only [aset, if_pos rfl]
      simp only [alookup, if_neg h]
    · simp [aset, hk, alookup, ih]

theorem aset_self_of_alookup {α : Type} (l : List (String × α)) (k : String) (v : α)
    (h : alookup l k = some v) : aset l k v = l := by
  induction l with
  | nil => simp [alookup] at h
  | cons kv rest ih =>
    by_cases hk : kv.1 = k
    · subst hk
      simp only [alookup, if_pos rfl] at h
      injection h with h2
      simp only [aset, if_pos rfl]
      rw [← h2]
      simp
    · simp only [alookup, if_neg hk] at h
      simp [aset, hk, ih h]

theorem aset_map_fst {α : Type} (l : List (String × α)) (k : String) (v : α)
    (h : (alookup l k).isSome = true) :
    (aset l k v).map Prod.fst = l.map Prod.fst := by
  induction l with
  | nil => simp [alookup] at h
  | cons kv rest ih =>
    by_cases hk : kv.1 = k
    · simp [aset, hk]
    · simp only [alookup, if_neg hk] at h
      simp [aset, hk, ih h]

theorem alookup_filter_key {α : Type} (l : List (String × α)) (g : String → Bool)
    (k : String) (hk : g k = true) :
    alookup (l.filter (fun pr => g pr.1)) k = alookup l k := by
  induction l with
  | nil => rfl
  | cons kv rest ih =>
    by_cases h : kv.1 = k
    · subst h
      simp [List.filter_cons, hk, alookup]
    · cases hg : g kv.1 with
      | true => simp [List.filter_cons, hg, alookup, h, ih]
      | false => simp [List.filter_cons, hg, alookup, h, ih]

theorem any_key_of_alookup {α : Type} (l : List (String × α)) (k : String) (v : α)
    (h : alookup l k = some v) : l.any (fun q => q.1 == k) = true := by
  induction l with
  | nil => simp [alookup] at h
  | cons kv rest ih =>
    by_cases hk : kv.1 = k
    · simp [List.any_cons, hk]
    · simp only [alookup, if_neg hk] at h
      simp [List.any_cons, ih h]

theorem mem_keys_of_any {α : Type} (l : List (String × α)) (k : String)
    (h : l.any (fun q => q.1 == k) = true) : k ∈ l.map Prod.fst := by
  rw [List.any_eq_true] at h
  obtain ⟨q, hq, he⟩ := h
  rw [beq_iff_eq] at he
  exact he ▸ List.mem_map_of_mem Prod.fst hq

/-! The decimal renderings of numbers are never the empty string: this is
what makes the str() coercion of validate_record stable under re-validation
of a required field. -/

theorem append_ne_empty_left (a b : String) (ha : a ≠ "") : a ++ b ≠ "" := by
  intro he
  apply ha
  have hl := congrArg String.length he
  rw [String.length_append] at hl
  have h0 : a.length = 0 := by
    have : ("" : String).length = 0 := rfl
    omega
  cases a with
  | mk data =>
    cases data with
    | nil => rfl
    | cons c cs => simp [String.length] at h0

theorem natDigitsAux_ne_nil (fuel n : Nat) (hn : n ≠ 0) (hf : fuel ≠ 0) :
    natDigitsAux fuel n ≠ [] := by
  match fuel with
  | 0 => exact absurd rfl hf
  | f + 1 => simp [natDigitsAux, hn]

theorem natStr_ne_empty (n : Nat) : natStr n ≠ "" := by
  unfold natStr
  by_cases h : n = 0
  · rw [if_pos h]
    decide
  · rw [if_neg h]
    intro he
    apply natDigitsAux_ne_nil (n + 1) n h (by omega)
    have h2 : (String.mk (natDigitsAux (n + 1) n)).data = ("" : String).data :=
      congrArg String.data he
    simpa using h2

theorem intStr_ne_empty (n : Int) : intStr n ≠ "" := by
  cases n with
  | ofNat m => exact natStr_ne_empty m
  | negSucc m => exact append_ne_empty_left "-" _ (by decide)

theorem floatStr_ne_empty (q : Rat) : floatStr q ≠ "" := by
  unfold floatStr
  by_cases h : q.den = 1
  · rw [if_pos h]
    exact append_ne_empty_left _ _ (intStr_ne_empty q.num)
  · rw [if_neg h]
    exact append_ne_empty_left _ _ (append_ne_empty_left _ _ (intStr_ne_empty q.num))

theorem pyStrOf_ne_empty (v : Value) (h : isMissingOpt (some v) = false) :
    pyStrOf v ≠ "" := by
  cases v with
  | vNone => simp [isMissingOpt] at h
  | vStr s =>
    simp only [isMissingOpt, valEqEmptyStr, decide_eq_false_iff_not] at h
    exact h
  | vInt n => exact intStr_ne_empty n
  | vFloat q => exact floatStr_ne_empty q
  | vBool b => cases b <;> decide

/-! Stability of one field step of validate_record: a value that the field
loop coerced without error is coerced to itself, without error, when the
loop runs again on the mutated record. -/

theorem fieldStep_float_repeat (field : String) (rl : Rule) (q : Rat)
    (hrt : rl.rtype = some .rtFloat) (hb : boundsErr field rl (.vFloat q) = none) :
    fieldStep field rl (some (.vFloat q)) = (some (.vFloat q), none) := by
  unfold fieldStep
  have hm : isMissingOpt (some (.vFloat q)) = false := rfl
  simp [hm, hrt, coerceVal, pyFloatOf, hb]

theorem fieldStep_int_repeat (field : String) (rl : Rule) (n : Int)
    (hrt : rl.rtype = some .rtInt) (hb : boundsErr field rl (.vInt n) = none) :
    fieldStep field rl (some (.vInt n)) = (some (.vInt n), none) := by
  unfold fieldStep
  have hm : isMissingOpt (some (.vInt n)) = false := rfl
  simp [hm, hrt, coerceVal, pyIntOf, hb]

theorem fieldStep_str_repeat (field : String) (rl : Rule) (s : String)
    (hrt : rl.rtype = some .rtStr) (hs : s ≠ "") :
    fieldStep field rl (some (.vStr s)) = (some (.vStr s), none) := by
  unfold fieldStep
  have hm : isMissingOpt (some (.vStr s)) = false := by
    simp [isMissingOpt, valEqEmptyStr, hs]
  simp [hm, hrt, coerceVal, pyStrOf, boundsErr, isNumRule]

theorem fieldStep_repeat (field : String) (rl : Rule) (v? : Option Value) (w : Value)
    (h : fieldStep field rl v? = (some w, none)) :
    fieldStep field rl (some w) = (some w, none) := by
  unfold fieldStep at h
  split at h
  · simp at h
  · rename_i hc1
    split at h
    · simp at h
    · rename_i hc2
      split at h
      · simp at h
      · rename_i v
        split at h
        · simp at h
        · rename_i w? heq
          simp only [Prod.mk.injEq] at h
          obtain ⟨hw, hb⟩ := h
          subst hw
          simp only [] at hb
          have hmiss : isMissingOpt (some v) = false := by simpa using hc2
          cases hrt : rl.rtype with
          | none =>
            rw [hrt] at heq
            simp [coerceVal] at heq
          | some rt =>
            cases rt with
            | rtBool =>
              rw [hrt] at heq
              simp [coerceVal] at heq
            | rtOther s =>
              rw [hrt] at heq
              simp [coerceVal] at heq
            | rtFloat =>
              rw [hrt] at heq
              simp only [coerceVal] at heq
              cases hpf : pyFloatOf v with
              | none => rw [hpf] at heq; simp at heq
              | some q =>
                rw [hpf] at heq
                simp only [Except.ok.injEq, Option.some.injEq] at heq
                subst heq
                exact fieldStep_float_repeat field rl q hrt (by simpa using hb)
            | rtInt =>
              rw [hrt] at heq
              simp only [coerceVal] at heq
              cases hpf : pyIntOf v with
              | none => rw [hpf] at heq; simp at heq
              | some n =>
                rw [hpf] at heq
                simp only [Except.ok.injEq, Option.some.injEq] at heq
                subst heq
                exact fieldStep_int_repeat field rl n hrt (by simpa using hb)
            | rtStr =>
              rw [hrt] at heq
              simp only [coerceVal, Except.ok.injEq, Option.some.injEq] at heq
              subst heq
              exact fieldStep_str_repeat field rl (pyStrOf v) hrt (pyStrOf_ne_empty v hmiss)

/-! Re-running one field of the loop on the record it just mutated changes
nothing and reports nothing. -/

theorem validateField_again (r : Record) (f : String) (rl : Rule) (r1 : Record)
    (h : validateField r f rl = (r1, none)) (r2 : Record)
    (h2 : alookup r2 f = alookup r1 f) :
    validateField r2 f rl = (r2, none) := by
  unfold validateField at h ⊢
  cases hs : fieldStep f rl (alookup r f) with
  | mk w? e? =>
    rw [hs] at h
    cases w? with
    | some w =>
      simp only [Prod.mk.injEq] at h
      obtain ⟨hr1, he⟩ := h
      subst he
      have hrep := fieldStep_repeat f rl (alookup r f) w hs
      have hl1 : alookup r1 f = some w := by
        rw [← hr1]
        exact alookup_aset_self r f w
      rw [h2, hl1, hrep]
      simp [aset_self_of_alookup r2 f w (h2.trans hl1)]
    | none =>
      simp only [Prod.mk.injEq] at h
      obtain ⟨hr1, he⟩ := h
      subst he
      subst hr1
      rw [h2, hs]

theorem validateField_lookup_ne (r : Record) (f : String) (rl : Rule) (k : String)
    (hk : k ≠ f) : alookup (validateField r f rl).1 k = alookup r k := by
  unfold validateField
  cases hs : fieldStep f rl (alookup r f) with
  | mk w? e? =>
    cases w? with
    | some w => exact alookup_aset_ne r f k w (Ne.symm hk)
    | none => rfl

theorem validateRecordAux_cons (c : String) (rl : Rule) (rest : Schema) (r : Record) :
    validateRecordAux ((c, rl) :: rest) r =
      ((validateRecordAux rest (validateField r c rl).1).1,
       match (validateField r c rl).2 with
       | some m => (c, m) :: (validateRecordAux rest (validateField r c rl).1).2
       | none => (validateRecordAux rest (validateField r c rl).1).2) := rfl

theorem validateRecordAux_lookup_notmem (schema : Schema) (r : Record) (f : String)
    (hf : f ∉ schema.map Prod.fst) :
    alookup (validateRecordAux schema r).1 f = alookup r f := by
  induction schema generalizing r with
  | nil => rfl
  | cons p rest ih =>
    obtain ⟨c, rl⟩ := p
    simp only [List.map_cons, List.mem_cons] at hf
    push_neg at hf
    obtain ⟨hfc, hfr⟩ := hf
    show alookup (validateRecordAux rest (validateField r c rl).1).1 f = alookup r f
    rw [ih (validateField r c rl).1 hfr]
    exact validateField_lookup_ne r c rl f hfc

/-- Running the whole field loop of validate_record a second time, on the
record mutated by an error-free first run, mutates nothing and reports no
error. -/
theorem validateRecordAux_idem (schema : Schema) (r : Record)
    (hnd : (schema.map Prod.fst).Nodup)
    (h : (validateRecordAux schema r).2 = []) :
    validateRecordAux schema (validateRecordAux schema r).1 =
      ((validateRecordAux schema r).1, []) := by
  induction schema generalizing r with
  | nil => rfl
  | cons p rest ih =>
    obtain ⟨c, rl⟩ := p
    simp only [List.map_cons, List.nodup_cons] at hnd
    obtain ⟨hcn, hndr⟩ := hnd
    cases hvf : (validateField r c rl).2 with
    | some m =>
      rw [validateRecordAux_cons, hvf] at h
      simp at h
    | none =>
      have hvf2 : validateField r c rl = ((validateField r c rl).1, none) := by
        rw [← hvf]
      have hE : (validateRecordAux rest (validateField r c rl).1).2 = [] := by
        rw [validateRecordAux_cons, hvf] at h
        exact h
      have hlk : alookup (validateRecordAux rest (validateField r c rl).1).1 c =
          alookup (validateField r c rl).1 c :=
        validateRecordAux_lookup_notmem rest (validateField r c rl).1 c hcn
      have hA : validateField (validateRecordAux rest (validateField r c rl).1).1 c rl =
          ((validateRecordAux rest (validateField r c rl).1).1, none) :=
        validateField_again r c rl (validateField r c rl).1 hvf2 _ hlk
      have hB := ih (validateField r c rl).1 hndr hE
      show validateRecordAux ((c, rl) :: rest)
          (validateRecordAux rest (validateField r c rl).1).1 =
        ((validateRecordAux rest (validateField r c rl).1).1, [])
      rw [validateRecordAux_cons, hA]
      simp [hB]

theorem insertFood_preserves_deleted (st : Store) (data : SRow) (st2 : Store)
    (h : insertFood st data = .ok st2) : st2.deleted = st.deleted := by
  unfold insertFood at h
  split at h
  · exact absurd h (by simp)
  · split at h
    · exact absurd h (by simp)
    · split at h
      · exact absurd h (by simp)
      · split at h
        · exact absurd h (by simp)
        · injection h with h2
          rw [← h2]

/-! The claims. -/

/-- C1: batch validation does not localize errors per row.  On dfC1 only row
0 (empty required commodity) and row 1 (negative value in the min-0 column
mean_consumption_chronic) are offending, yet row 2 — which has no offending
value — receives the same non-empty error mapping naming both fields,
because every entry of row_errors aliases the single dict created by
row_errors = [...] * len(df) at schema.py line 152. -/
theorem validate_dataframe_row_errors_aliased :
    ∃ out, validate_dataframe defaultSchemas "food_consumption" dfC1 = .ok out ∧
      out.row_errors.getD 2 [] =
        [("commodity", "commodity cannot be empty"),
         ("mean_consumption_chronic", "mean_consumption_chronic must be at least 0")] ∧
      out.row_errors.getD 2 [] ≠ [] := by
  refine ⟨⟨dfC1, dfC1,
      List.replicate 3
        [("commodity", "commodity cannot be empty"),
         ("mean_consumption_chronic", "mean_consumption_chronic must be at least 0")],
      true⟩, by decide, by decide, by decide⟩

/-- C2: add_record never assigns and never returns a fresh id on the
recognized table: the INSERT omits the id primary-key column, which DuckDB
neither defaults nor auto-increments (constraint error), and the follow-up
SELECT last_insert_rowid() names a function DuckDB does not have; every call
reports an error. -/
theorem add_record_never_returns_id (st : Store) (data : SRow) :
    ∃ e, (add_record st "food_consumption" data).2 = .error e := by
  unfold add_record
  rw [if_pos rfl]
  cases hi : insertFood st data with
  | error e => exact ⟨e, rfl⟩
  | ok st2 => exact ⟨.catalogError, rfl⟩

theorem add_record_never_returns_id_witness :
    ∃ e, (add_record emptyStore "food_consumption"
      [("commodity", .sText "apple"), ("age_group", .sText "adults")]).2 = .error e :=
  add_record_never_returns_id emptyStore
    [("commodity", .sText "apple"), ("age_group", .sText "adults")]

/-- C3: update_record on an id absent from the active table crashes with
TypeError (fetchone() returns None and the source indexes it at
db_manager.py line 86) instead of reporting NotFound; the store state is
left unchanged. -/
theorem update_record_missing_id_crashes (st : Store) (rid : Int) (data : SRow)
    (h : st.food.find? (fun r => alookup r "id" == some (.sInt rid)) = none) :
    update_record st "food_consumption" rid data = (st, .error .typeError) := by
  unfold update_record readVersionStep
  rw [if_pos rfl, h]
  rfl

theorem update_record_missing_id_crashes_witness :
    update_record emptyStore "food_consumption" 7 dataB = (emptyStore, .error .typeError) :=
  update_record_missing_id_crashes emptyStore 7 dataB rfl

/-- C4: delete_record raises AttributeError on every record that exists:
db_manager.py line 106 calls record.keys() on the plain tuple returned by
fetchone(), so the delete half of the delete/undo round trip never returns
true and never writes a tombstone. -/
theorem delete_record_crashes_on_existing (st : Store) (rid : Int)
    (h : (st.food.find? (fun r => alookup r "id" == some (.sInt rid))).isSome = true) :
    delete_record st "food_consumption" rid = (st, .error .attributeError) := by
  unfold delete_record
  rw [if_pos rfl]
  obtain ⟨r, hr⟩ := Option.isSome_iff_exists.mp h
  rw [hr]

theorem delete_record_crashes_on_existing_witness :
    delete_record storeOne "food_consumption" 1 = (storeOne, .error .attributeError) :=
  delete_record_crashes_on_existing storeOne 1 (by decide)

/-- C5: undo_delete never consumes a tombstone: after re-inserting the
newest tombstone's record it issues DELETE ... ORDER BY deleted_at DESC
LIMIT 1, which DuckDB's DELETE grammar rejects, so the call raises a parser
error and the tombstone log is left exactly as it was; repeated undo calls
therefore re-restore the same newest deletion instead of working through the
log in LIFO order. -/
theorem undo_delete_never_consumes_tombstone (st : Store) (oid : Int)
    (h : (newestTombstone st.deleted oid "food_consumption").isSome = true) :
    (∃ e, (undo_delete st oid "food_consumption").2 = .error e) ∧
    (undo_delete st oid "food_consumption").1.deleted = st.deleted := by
  obtain ⟨d, hd⟩ := Option.isSome_iff_exists.mp h
  cases hi : insertFood st d.record_data with
  | error e =>
    refine ⟨⟨e, ?_⟩, ?_⟩ <;> simp [undo_delete, hd, hi]
  | ok st2 =>
    refine ⟨⟨.parserError, ?_⟩, ?_⟩ <;>
      simp [undo_delete, hd, hi, insertFood_preserves_deleted st d.record_data st2 hi]

theorem undo_delete_never_consumes_tombstone_witness :
    (∃ e, (undo_delete storeTwoTombs 1 "food_consumption").2 = .error e) ∧
    (undo_delete storeTwoTombs 1 "food_consumption").1.deleted = storeTwoTombs.deleted :=
  undo_delete_never_consumes_tombstone storeTwoTombs 1 (by decide)

/-- C6: validation combined with its in-place coercion is idempotent: if
validate_record returns no errors for a record on a registered table, then
validating the coerced record again returns no errors and leaves it
unchanged.  The Nodup hypothesis records that a Python dict cannot hold the
same field twice. -/
theorem validate_record_coercion_idempotent
    (schemas : Schemas) (table : String) (schema : Schema) (record coerced : Record)
    (hs : alookup schemas table = some schema)
    (hnd : (schema.map Prod.fst).Nodup)
    (h : validate_record schemas table record = .ok ([], coerced)) :
    validate_record schemas table coerced = .ok ([], coerced) := by
  unfold validate_record at h ⊢
  rw [hs] at h ⊢
  simp only [Except.ok.injEq, Prod.mk.injEq] at h
  obtain ⟨he, hc⟩ := h
  have hidem := validateRecordAux_idem schema record hnd he
  show Except.ok ((validateRecordAux schema coerced).2, (validateRecordAux schema coerced).1) =
    Except.ok ([], coerced)
  rw [← hc, hidem]

theorem validate_record_coercion_idempotent_witness :
    validate_record defaultSchemas "food_consumption" recC6coerced = .ok ([], recC6coerced) :=
  validate_record_coercion_idempotent defaultSchemas "food_consumption" default_food_schema
    recC6 recC6coerced (by decide) (by decide) (by decide)

/-- C9: the two-statement update_record admits a lost update.  Two sessions
both read version 1 of record 1 from the same state (first two conjuncts:
the complete call of session one, and session two's stale read), then both
run the write statement with version 1 + 1; after the second write the
stored version is still 2, so one version bump is silently lost, both calls
completed without error, and nothing resembling a VersionConflict exists in
the code to be raised. -/
theorem concurrent_updates_lose_version_bump :
    update_record storeOne "food_consumption" 1 dataB =
      (writeVersionStep storeOne 1 dataB (1 + 1), .ok ()) ∧
    readVersionStep storeOne 1 = some (.sInt 1) ∧
    readVersionStep (writeVersionStep storeOne 1 dataB (1 + 1)) 1 = some (.sInt 2) ∧
    readVersionStep
      (writeVersionStep (writeVersionStep storeOne 1 dataB (1 + 1)) 1 dataC (1 + 1)) 1 =
      some (.sInt 2) := by
  refine ⟨?_, ?_, ?_, ?_⟩ <;> decide

theorem convertTypeVal_unsupported (ts : String) (h : supportedTypeName ts = false) :
    convertTypeVal ts = .pRaw (.rvStr ts) := by
  simp only [supportedTypeName, Bool.or_eq_false_iff, decide_eq_false_iff_not] at h
  unfold convertTypeVal
  rw [if_neg (by tauto), if_neg (by tauto), if_neg (by tauto), if_neg (by tauto),
      if_neg (by tauto), if_neg (by tauto)]

/-- C7 counterexample: a readable YAML source whose single rule carries the
unsupported type name "decimal" is NOT replaced by the built-in default
schema — the processed schema keeps the table and the unsupported name, so
the claim that unsupported type names fall back to the default schema is
false. -/
theorem load_schema_unsupported_type_not_default :
    load_schema (.source ".yaml" (.ok rawUnsupported)) ≠ default_schema := by decide

/-- C7 amended: schema loading never raises; a missing file, an unsupported
extension, unreadable content and content whose processing raises (non-dict
levels, non-string type values) all yield the built-in default schema; but an
unsupported type name does not trigger the fallback — processing succeeds and
the name is kept verbatim in the loaded schema. -/
theorem load_schema_fallback_behaviour :
    (∀ src, badSource src → load_schema src = default_schema) ∧
    (∀ tn f ts, supportedTypeName ts = false →
      load_schema
          (.source ".yaml" (.ok (.dict [(tn, .dict [(f, .dict [("type", .rvStr ts)])])]))) =
        [(tn, [(f, [("type", .pRaw (.rvStr ts))])])]) := by
  constructor
  · intro src hb
    match src with
    | .missing => rfl
    | .source ext content =>
      simp only [load_schema]
      by_cases he : (strLower ext = ".yaml" ∨ strLower ext = ".yml" ∨ strLower ext = ".toml")
      · rcases hb with h1 | h2 | ⟨raw, hc, hp⟩
        · exact absurd he h1
        · rw [if_pos he, h2]
        · rw [if_pos he, hc]
          simp [hp]
      · rw [if_neg he]
  · intro tn f ts hts
    simp only [load_schema]
    rw [if_pos (Or.inl (by decide))]
    rw [show processSchema (.dict [(tn, .dict [(f, .dict [("type", .rvStr ts)])])]) =
          Except.ok [(tn, [(f, [("type", convertTypeVal ts)])])] from rfl]
    rw [convertTypeVal_unsupported ts hts]

theorem load_schema_fallback_behaviour_witness :
    load_schema (.source ".txt" (.ok rawUnsupported)) = default_schema ∧
    load_schema
        (.source ".yaml"
          (.ok (.dict [("tbl", .dict [("fld", .dict [("type", .rvStr "decimal")])])]))) =
      [("tbl", [("fld", [("type", .pRaw (.rvStr "decimal"))])])] :=
  ⟨load_schema_fallback_behaviour.1 (.source ".txt" (.ok rawUnsupported)) (Or.inl (by decide)),
   load_schema_fallback_behaviour.2 "tbl" "fld" "decimal" (by decide)⟩

theorem vdStep_caller (n : Nat) (st : VState) (c : String) (rl : Rule) :
    (vdStep n st c rl).caller_df = st.caller_df := by
  unfold vdStep
  split
  · split <;> rfl
  · split <;> rfl

theorem vdFold_caller (n : Nat) (schema : Schema) (st : VState) :
    (schema.foldl (fun s p => vdStep n s p.1 p.2) st).caller_df = st.caller_df := by
  induction schema generalizing st with
  | nil => rfl
  | cons p rest ih =>
    rw [List.foldl_cons, ih (vdStep n st p.1 p.2)]
    exact vdStep_caller n st p.1 p.2

/-- C10: neither batch operation mutates the caller's dataframe.  Both
functions copy df first (schema.py lines 143 and 211) and every later write
targets the copy, so the dataframe the caller passed in — carried through the
embedding as the caller_df component — is returned to the caller exactly as
it was, and coerced values appear only in the returned batch. -/
theorem batch_functions_do_not_mutate_input
    (schemas : Schemas) (table : String) (df : Df) (out : VOut) (out2 : COut)
    (h1 : validate_dataframe schemas table df = .ok out)
    (h2 : clean_dataframe_for_import schemas table df = .ok out2) :
    out.caller_df = df ∧ out2.caller_df = df := by
  constructor
  · unfold validate_dataframe at h1
    split at h1
    · exact absurd h1 (by simp)
    · split at h1
      · exact absurd h1 (by simp)
      · injection h1 with h3
        rw [← h3]
        exact vdFold_caller df.nrows _ ⟨df, df, [], false⟩
  · unfold clean_dataframe_for_import at h2
    split at h2
    · exact absurd h2 (by simp)
    · injection h2 with h3
      rw [← h3]

theorem batch_functions_do_not_mutate_input_witness :
    (VOut.mk dfSmall dfSmall [[]] false).caller_df = dfSmall ∧
    (COut.mk dfSmall ⟨[], 1⟩).caller_df = dfSmall :=
  batch_functions_do_not_mutate_input schemasEmptyT "t0" dfSmall
    (VOut.mk dfSmall dfSmall [[]] false) (COut.mk dfSmall ⟨[], 1⟩)
    (by decide) (by decide)

theorem cleanStep_getCol_self (d : Df) (c : String) (rl : Rule) :
    (cleanStep d c rl).getCol c = (d.getCol c).map (cleanColCells rl) := by
  cases hg : alookup d.cols c with
  | none =>
    have hh : d.hasCol c = false := by simp [Df.hasCol, hg]
    simp [cleanStep, hh, Df.getCol, hg]
  | some cells =>
    have hh : d.hasCol c = true := by simp [Df.hasCol, hg]
    simp [cleanStep, hh, Df.getCol, Df.setCol, hg, alookup_aset_self]

theorem cleanStep_getCol_ne (d : Df) (c c2 : String) (rl : Rule) (h : c ≠ c2) :
    (cleanStep d c rl).getCol c2 = d.getCol c2 := by
  unfold cleanStep
  split
  · simp [Df.getCol, Df.setCol, alookup_aset_ne _ c c2 _ h]
  · rfl

theorem cleanStep_keys (d : Df) (c : String) (rl : Rule) :
    (cleanStep d c rl).cols.map Prod.fst = d.cols.map Prod.fst := by
  unfold cleanStep
  split
  · rename_i hh
    exact aset_map_fst d.cols c _ (by simpa [Df.hasCol] using hh)
  · rfl

theorem cleanFold_cons (p : String × Rule) (rest : Schema) (d : Df) :
    cleanFold (p :: rest) d = cleanFold rest (cleanStep d p.1 p.2) := rfl

theorem cleanFold_keys (schema : Schema) (d : Df) :
    (cleanFold schema d).cols.map Prod.fst = d.cols.map Prod.fst := by
  induction schema generalizing d with
  | nil => rfl
  | cons p rest ih => rw [cleanFold_cons, ih, cleanStep_keys]

theorem cleanFold_getCol_notmem (schema : Schema) (d : Df) (col : String)
    (h : col ∉ schema.map Prod.fst) :
    (cleanFold schema d).getCol col = d.getCol col := by
  induction schema generalizing d with
  | nil => rfl
  | cons p rest ih =>
    simp only [List.map_cons, List.mem_cons] at h
    push_neg at h
    rw [cleanFold_cons, ih _ h.2, cleanStep_getCol_ne _ _ _ _ (Ne.symm h.1)]

theorem cleanFold_getCol (schema : Schema) (d : Df) (col : String) (rl : Rule)
    (hnd : (schema.map Prod.fst).Nodup) (h : alookup schema col = some rl) :
    (cleanFold schema d).getCol col = (d.getCol col).map (cleanColCells rl) := by
  induction schema generalizing d with
  | nil => simp [alookup] at h
  | cons p rest ih =>
    simp only [List.map_cons, List.nodup_cons] at hnd
    obtain ⟨hp, hndr⟩ := hnd
    by_cases hc : p.1 = col
    · subst hc
      have hr : rl = p.2 := by
        simp only [alookup, if_pos rfl] at h
        injection h with h2
        exact h2.symm
      subst hr
      rw [cleanFold_cons, cleanFold_getCol_notmem rest _ p.1 hp, cleanStep_getCol_self]
    · simp only [alookup, if_neg hc] at h
      rw [cleanFold_cons, ih _ hndr h, cleanStep_getCol_ne _ _ _ _ hc]

theorem toNumericCell_shape (c : Cell) :
    toNumericCell c = .cNaN ∨ ∃ q, toNumericCell c = .cNum q := by
  cases c with
  | cNum q => exact Or.inr ⟨q, rfl⟩
  | cNaN => exact Or.inl rfl
  | cNone => exact Or.inl rfl
  | cBool b => exact Or.inr ⟨if b then 1 else 0, rfl⟩
  | cStr s =>
    cases hp : pyFloatParse s with
    | none => exact Or.inl (by simp [toNumericCell, hp])
    | some q => exact Or.inr ⟨q, by simp [toNumericCell, hp]⟩

theorem kept_getCol (schema : Schema) (df : Df) (col : String) (rl : Rule)
    (h : alookup schema col = some rl) :
    Df.getCol ⟨df.cols.filter (fun p => schema.any (fun q => q.1 == p.1)), df.nrows⟩ col =
      df.getCol col := by
  show alookup (df.cols.filter (fun p => schema.any (fun q => q.1 == p.1))) col =
    alookup df.cols col
  exact alookup_filter_key df.cols (fun n => schema.any (fun q => q.1 == n)) col
    (any_key_of_alookup schema col rl h)

/-- C8: clean_dataframe_for_import never errors on a registered table, keeps
only schema-known columns (unknown columns are silently dropped), transforms
every known column exactly by the schema coercion — float columns through
to_numeric with invalid values becoming the NaN missing marker, string
columns through fillna('') then astype(str) — so every cell of a float column
is a number or NaN, and every cell of a string column is a string (missing
values became the empty string, never a null hole). -/
theorem clean_dataframe_for_import_typed
    (schemas : Schemas) (table : String) (schema : Schema) (df : Df)
    (hs : alookup schemas table = some schema)
    (hnd : (schema.map Prod.fst).Nodup) :
    ∃ out, clean_dataframe_for_import schemas table df = .ok out ∧
      (∀ n, n ∈ out.clean_df.cols.map Prod.fst → n ∈ schema.map Prod.fst) ∧
      (∀ col rl, alookup schema col = some rl →
        out.clean_df.getCol col = (df.getCol col).map (cleanColCells rl)) ∧
      (∀ col rl cells c, alookup schema col = some rl → rl.rtype = some .rtFloat →
        out.clean_df.getCol col = some cells → c ∈ cells →
        c = .cNaN ∨ ∃ q, c = .cNum q) ∧
      (∀ col rl cells c, alookup schema col = some rl → rl.rtype = some .rtStr →
        out.clean_df.getCol col = some cells → c ∈ cells → ∃ s, c = .cStr s) := by
  refine ⟨⟨df, cleanFold schema
      ⟨df.cols.filter (fun p => schema.any (fun q => q.1 == p.1)), df.nrows⟩⟩,
    ?_, ?_, ?_, ?_, ?_⟩
  · unfold clean_dataframe_for_import
    rw [hs]
  · intro n hn
    replace hn : n ∈ (cleanFold schema
        ⟨df.cols.filter (fun p => schema.any (fun q => q.1 == p.1)), df.nrows⟩).cols.map
          Prod.fst := hn
    rw [cleanFold_keys] at hn
    simp only [List.mem_map] at hn
    obtain ⟨p, hp, hpn⟩ := hn
    rw [List.mem_filter] at hp
    exact hpn ▸ mem_keys_of_any schema p.1 hp.2
  · intro col rl hcol
    show (cleanFold schema
        ⟨df.cols.filter (fun p => schema.any (fun q => q.1 == p.1)), df.nrows⟩).getCol col =
      (df.getCol col).map (cleanColCells rl)
    rw [cleanFold_getCol schema _ col rl hnd hcol, kept_getCol schema df col rl hcol]
  · intro col rl cells c hcol hft hget hc
    replace hget : (cleanFold schema
        ⟨df.cols.filter (fun p => schema.any (fun q => q.1 == p.1)), df.nrows⟩).getCol col =
      some cells := hget
    rw [cleanFold_getCol schema _ col rl hnd hcol, kept_getCol schema df col rl hcol] at hget
    cases ho : df.getCol col with
    | none =>
      rw [ho] at hget
      simp at hget
    | some cells0 =>
      rw [ho] at hget
      simp only [Option.map_some'] at hget
      injection hget with hcc
      have hcells : cells = cells0.map toNumericCell := by
        rw [← hcc]
        unfold cleanColCells
        rw [hft]
      rw [hcells] at hc
      simp only [List.mem_map] at hc
      obtain ⟨c0, _, hc0⟩ := hc
      exact hc0 ▸ toNumericCell_shape c0
  · intro col rl cells c hcol hst hget hc
    replace hget : (cleanFold schema
        ⟨df.cols.filter (fun p => schema.any (fun q => q.1 == p.1)), df.nrows⟩).getCol col =
      some cells := hget
    rw [cleanFold_getCol schema _ col rl hnd hcol, kept_getCol schema df col rl hcol] at hget
    cases ho : df.getCol col with
    | none =>
      rw [ho] at hget
      simp at hget
    | some cells0 =>
      rw [ho] at hget
      simp only [Option.map_some'] at hget
      injection hget with hcc
      have hcells : cells = cells0.map (fun c2 => Cell.cStr (astypeStrCell (fillnaEmpty c2))) := by
        rw [← hcc]
        unfold cleanColCells
        rw [hst]
      rw [hcells] at hc
      simp only [List.mem_map] at hc
      obtain ⟨c0, _, hc0⟩ := hc
      exact ⟨astypeStrCell (fillnaEmpty c0), hc0.symm⟩

theorem clean_dataframe_for_import_typed_witness :
    ∃ out, clean_dataframe_for_import wSchemas "t" wDf = .ok out ∧
      (∀ n, n ∈ out.clean_df.cols.map Prod.fst → n ∈ wSchema.map Prod.fst) ∧
      (∀ col rl, alookup wSchema col = some rl →
        out.clean_df.getCol col = (wDf.getCol col).map (cleanColCells rl)) ∧
      (∀ col rl cells c, alookup wSchema col = some rl → rl.rtype = some .rtFloat →
        out.clean_df.getCol col = some cells → c ∈ cells →
        c = .cNaN ∨ ∃ q, c = .cNum q) ∧
      (∀ col rl cells c, alookup wSchema col = some rl → rl.rtype = some .rtStr →
        out.clean_df.getCol col = some cells → c ∈ cells → ∃ s, c = .cStr s) :=
  clean_dataframe_for_import_typed wSchemas "t" wSchema wDf (by decide) (by decide)

end FSA

